import Mathlib

/-!
Verification development for the token_bowl_chat_server repository.

Shallow embedding of the parts of the code the claims are about:
* `models.py`   — `MessageType`, `Role`, `User` (with its pydantic validators),
                  `Message`, `ReadReceipt`.
* `webhook.py`  — `WebhookDelivery.deliver_message` retry loop.
* `storage.py`  — `ChatStorage` message / read-receipt queries and mutations
                  (SQLite tables modelled as lists, queries as filters).
* `websocket.py` / `websocket_heartbeat.py` — connection registry and
                  heartbeat bookkeeping (dicts modelled as maps into `Option`).
* `api.py`      — the mark-read HTTP endpoint and WebSocket `mark_read` frame.

Machine integers do not occur; Python ints are `Nat`/`Int`.  Timestamps are
modelled as integer seconds (`Int`).  `await`/exceptions are modelled by
explicit outcome values; every embedded operation is a total function, so
"returns rather than raises" is expressed by the operation's return value.
-/

/-- `MessageType` enum from `models.py`. -/
inductive MessageType where
  | room
  | direct
  | system
deriving DecidableEq, Repr

/-- `Role` enum from `models.py`. -/
inductive Role where
  | admin
  | member
  | viewer
  | bot
deriving DecidableEq, Repr

/-- The `User` pydantic model from `models.py` (field values; validation is
`mkUser` below).  UUIDs are modelled as `Nat`, datetimes as integer seconds. -/
structure User where
  id : Nat
  username : String
  api_key : String
  role : Role
  created_by : Option Nat
  stytch_user_id : Option String
  email : Option String
  webhook_url : Option String
  logo : Option String
  viewer : Bool
  admin : Bool
  bot : Bool
  emoji : Option String
  created_at : Int
deriving DecidableEq, Repr

/-- `AVAILABLE_LOGOS` from `models.py`. -/
def AVAILABLE_LOGOS : List String :=
  ["claude-color.png", "deepseek-color.png", "gemini-color.png", "gemma-color.png",
   "grok.png", "kimi-color.png", "mistral-color.png", "openai.png", "qwen-color.png"]

/-- `User.validate_logo` field validator: a logo must be `None` or in
`AVAILABLE_LOGOS`. -/
def validate_logo (v : Option String) : Bool :=
  match v with
  | none => true
  | some s => AVAILABLE_LOGOS.contains s

/-- `User.validate_emoji` field validator: an emoji must be `None` or at most
10 characters. -/
def validate_emoji (v : Option String) : Bool :=
  match v with
  | none => true
  | some s => s.length ≤ 10

/-- `User.sync_role_with_legacy_fields` (`models.py` lines 152-163): the
`mode="after"` model validator that overwrites the legacy booleans from
`role`. -/
def sync_role_with_legacy_fields (u : User) : User :=
  { u with
    admin := u.role == Role.admin
    viewer := u.role == Role.viewer
    bot := u.role == Role.bot }

/-- Constructing a `User`: pydantic runs the `Field` length constraints and the
field validators, then the `mode="after"` model validator
`sync_role_with_legacy_fields`.  `none` models a `ValidationError`. -/
def mkUser (i : User) : Option User :=
  if (1 ≤ i.username.length ∧ i.username.length ≤ 50) ∧
     (32 ≤ i.api_key.length ∧ i.api_key.length ≤ 128) ∧
     validate_logo i.logo = true ∧ validate_emoji i.emoji = true then
    some (sync_role_with_legacy_fields i)
  else
    none

/-- Outcome of one `self.client.post(...)` attempt inside
`WebhookDelivery.deliver_message` (`webhook.py` lines 61-94): either an HTTP
response with a status code, or one of the three caught exception classes. -/
inductive AttemptOutcome where
  | response (statusCode : Nat)
  | timeoutErr
  | requestErr
  | unexpectedErr
deriving DecidableEq, Repr

/-- Whether one attempt is counted as a success by the code: only a response
with `status_code < 300` (`webhook.py` line 69); every caught exception is a
failure. -/
def attemptSucceeds : AttemptOutcome → Bool
  | .response s => decide (s < 300)
  | .timeoutErr => false
  | .requestErr => false
  | .unexpectedErr => false

/-- Observable result of `deliver_message`: the returned boolean, the number of
POST attempts actually made, and the list of backoff sleeps (in seconds)
performed between attempts, in order. -/
structure DeliverResult where
  success : Bool
  attempts : Nat
  sleeps : List Nat
deriving DecidableEq, Repr

/-- The `for attempt in range(self.max_retries)` loop of `deliver_message`:
`attempt` is the current index, the second argument the remaining iterations.
On success the loop returns `True` at once; on failure it sleeps
`2 ** attempt` seconds if `attempt < max_retries - 1` and continues; if the
loop ends, `False` is returned. -/
def runAttempts (outcomes : Nat → AttemptOutcome) (maxRetries : Nat) :
    Nat → Nat → DeliverResult
  | _, 0 => ⟨false, 0, []⟩
  | attempt, remaining + 1 =>
    if attemptSucceeds (outcomes attempt) then
      ⟨true, 1, []⟩
    else
      let thisSleep : List Nat := if attempt < maxRetries - 1 then [2 ^ attempt] else []
      let rest := runAttempts outcomes maxRetries (attempt + 1) remaining
      ⟨rest.success, rest.attempts + 1, thisSleep ++ rest.sleeps⟩

/-- `WebhookDelivery.deliver_message` (`webhook.py` lines 38-103).
`clientStarted` models `self.client` being set by `start()`. `outcomes` gives
the result of the HTTP POST of each attempt index.  The function always
returns a result (the Python code catches every exception inside the loop and
returns a boolean). -/
def deliver_message (user : User) (clientStarted : Bool) (maxRetries : Nat)
    (outcomes : Nat → AttemptOutcome) : DeliverResult :=
  if user.webhook_url = none then ⟨false, 0, []⟩
  else if clientStarted = false then ⟨false, 0, []⟩
  else runAttempts outcomes maxRetries 0 maxRetries

/-- Default `max_retries` of `WebhookDelivery.__init__`. -/
def MAX_RETRIES_DEFAULT : Nat := 3

theorem runAttempts_all_fail (outcomes : Nat → AttemptOutcome) (mr : Nat)
    (h : ∀ i, attemptSucceeds (outcomes i) = false) :
    ∀ r a, runAttempts outcomes mr a r =
      ⟨false, r,
        ((List.range' a r).filter (fun i => decide (i < mr - 1))).map (fun i => 2 ^ i)⟩ := by
  intro r
  induction r with
  | zero => intro a; simp [runAttempts]
  | succ n ih =>
    intro a
    rw [runAttempts, h a, ih (a + 1)]
    by_cases hc : a < mr - 1
    · simp [hc, List.range'_succ, List.filter_cons]
    · simp [hc, List.range'_succ, List.filter_cons]

theorem range_filter_lt_pred (mr : Nat) :
    (List.range' 0 mr).filter (fun i => decide (i < mr - 1)) = List.range (mr - 1) := by
  rw [← List.range_eq_range']
  cases mr with
  | zero => simp
  | succ n =>
    rw [List.range_succ, List.filter_append]
    have h1 : (List.range n).filter (fun i => decide (i < n + 1 - 1)) = List.range n := by
      apply List.filter_eq_self.2
      intro a ha
      simpa using List.mem_range.1 ha
    have h2 : ([n] : List Nat).filter (fun i => decide (i < n + 1 - 1)) = [] := by
      simp
    rw [h1, h2]
    simp

theorem runAttempts_first_success (outcomes : Nat → AttemptOutcome) (mr : Nat) :
    ∀ (k r a : Nat), k < r →
      (∀ i, i < k → attemptSucceeds (outcomes (a + i)) = false) →
      attemptSucceeds (outcomes (a + k)) = true →
      (runAttempts outcomes mr a r).success = true ∧
      (runAttempts outcomes mr a r).attempts = k + 1 := by
  intro k
  induction k with
  | zero =>
    intro r a hr hfail hsucc
    obtain ⟨r', rfl⟩ : ∃ r', r = r' + 1 := ⟨r - 1, (Nat.succ_pred_eq_of_pos hr).symm⟩
    have hs : attemptSucceeds (outcomes a) = true := by simpa using hsucc
    rw [runAttempts]
    simp [hs]
  | succ k ih =>
    intro r a hr hfail hsucc
    obtain ⟨r', rfl⟩ : ∃ r', r = r' + 1 :=
      ⟨r - 1, (Nat.succ_pred_eq_of_pos (Nat.lt_of_le_of_lt (Nat.zero_le _) hr)).symm⟩
    have h0 : attemptSucceeds (outcomes a) = false := by
      simpa using hfail 0 (Nat.succ_pos k)
    rw [runAttempts, h0]
    have hr' : k < r' := Nat.lt_of_succ_lt_succ hr
    have hfail' : ∀ i, i < k → attemptSucceeds (outcomes (a + 1 + i)) = false := by
      intro i hi
      have := hfail (i + 1) (Nat.succ_lt_succ hi)
      simpa [Nat.add_assoc, Nat.add_comm 1 i] using this
    have hsucc' : attemptSucceeds (outcomes (a + 1 + k)) = true := by
      simpa [Nat.add_assoc, Nat.add_comm 1 k] using hsucc
    have := ih r' (a + 1) hr' hfail' hsucc'
    simp only [DeliverResult.mk.injEq]
    exact ⟨this.1, by simp [this.2]⟩

theorem runAttempts_attempts_pos (outcomes : Nat → AttemptOutcome) (mr a r : Nat)
    (hr : 1 ≤ r) : 1 ≤ (runAttempts outcomes mr a r).attempts := by
  obtain ⟨r', rfl⟩ : ∃ r', r = r' + 1 := ⟨r - 1, (Nat.succ_pred_eq_of_pos hr).symm⟩
  rw [runAttempts]
  by_cases h : attemptSucceeds (outcomes a) = true
  · simp [h]
  · simp [h]

/-- C2: for a user with a webhook URL and a started client, `deliver_message`
on persistent failure makes exactly `max_retries` attempts, sleeping
`2 ^ attemptIndex` seconds between consecutive attempts (`1, 2, 4, …`), and
returns (never raises) a failure result; and on the first successful attempt it
stops immediately, reporting success. -/
theorem C2_webhook_retry_policy (u : User) (mr : Nat) (outcomes : Nat → AttemptOutcome)
    (hu : u.webhook_url ≠ none) :
    ((∀ i, attemptSucceeds (outcomes i) = false) →
      deliver_message u true mr outcomes =
        ⟨false, mr, (List.range (mr - 1)).map (fun i => 2 ^ i)⟩)
    ∧ (∀ k, k < mr → (∀ i, i < k → attemptSucceeds (outcomes i) = false) →
        attemptSucceeds (outcomes k) = true →
        (deliver_message u true mr outcomes).success = true ∧
        (deliver_message u true mr outcomes).attempts = k + 1) := by
  constructor
  · intro hfail
    rw [deliver_message, if_neg hu]
    simp only [Bool.true_eq_false, if_false, ite_false]
    rw [runAttempts_all_fail outcomes mr hfail mr 0, range_filter_lt_pred]
  · intro k hk hfail hsucc
    rw [deliver_message, if_neg hu]
    simp only [Bool.true_eq_false, if_false, ite_false]
    exact runAttempts_first_success outcomes mr k mr 0 hk
      (by simpa using hfail) (by simpa using hsucc)

/-- A member user with a configured webhook URL, used as concrete input. -/
def webhookUser : User :=
  { id := 1, username := "alice", api_key := "0123456789abcdef0123456789abcdef",
    role := Role.member, created_by := none, stytch_user_id := none, email := none,
    webhook_url := some "https://example.com/hook", logo := none,
    viewer := false, admin := false, bot := false, emoji := none, created_at := 0 }

/-- Witness for C2: with the default `max_retries = 3` and every attempt timing
out, delivery makes 3 attempts, sleeps 1s then 2s, and returns failure. -/
theorem C2_webhook_retry_policy_witness :
    deliver_message webhookUser true 3 (fun _ => AttemptOutcome.timeoutErr) =
      ⟨false, 3, [1, 2]⟩ := by
  have h := (C2_webhook_retry_policy webhookUser 3 (fun _ => AttemptOutcome.timeoutErr)
      (by decide)).1 (fun i => rfl)
  simpa using h

/-- C3 counterexample: the code counts any `status_code < 300` as success
(`webhook.py` line 69), so HTTP status 100 — which is not a 2xx status — is
treated as a successful delivery attempt (first attempt succeeds, no retry),
contradicting "successful if and only if the status is a 2xx status". -/
theorem C3_counterexample :
    attemptSucceeds (AttemptOutcome.response 100) = true ∧ ¬(200 ≤ 100) ∧
    deliver_message webhookUser true 3 (fun _ => AttemptOutcome.response 100) =
      ⟨true, 1, []⟩ := by
  refine ⟨by decide, by decide, ?_⟩
  have h := (C2_webhook_retry_policy webhookUser 3 (fun _ => AttemptOutcome.response 100)
      (by decide)).2 0 (by decide) (by intro i hi; cases hi) (by decide)
  have hs : (runAttempts (fun _ => AttemptOutcome.response 100) 3 0 3) = ⟨true, 1, []⟩ := by
    rw [runAttempts]
    simp [attemptSucceeds]
  rw [deliver_message]
  simpa using hs

/-- C3 amended: a delivery attempt is treated as successful iff its HTTP status
is `< 300` (so 1xx statuses also count as success, not only 2xx); every status
`≥ 300` is a retryable failure (a further attempt is made while attempts
remain), and a timeout, network error, or unexpected exception is never a
success. -/
theorem C3_status_below_300_is_success (u : User) (mr : Nat)
    (outcomes : Nat → AttemptOutcome) (hu : u.webhook_url ≠ none) (hmr : 2 ≤ mr) :
    (∀ s, outcomes 0 = AttemptOutcome.response s → s < 300 →
        deliver_message u true mr outcomes = ⟨true, 1, []⟩)
    ∧ (∀ s, outcomes 0 = AttemptOutcome.response s → 300 ≤ s →
        2 ≤ (deliver_message u true mr outcomes).attempts)
    ∧ attemptSucceeds AttemptOutcome.timeoutErr = false
    ∧ attemptSucceeds AttemptOutcome.requestErr = false
    ∧ attemptSucceeds AttemptOutcome.unexpectedErr = false := by
  refine ⟨?_, ?_, rfl, rfl, rfl⟩
  · intro s hs hlt
    rw [deliver_message, if_neg hu]
    simp only [Bool.true_eq_false, if_false, ite_false]
    obtain ⟨mr', rfl⟩ : ∃ mr', mr = mr' + 1 :=
      ⟨mr - 1, (Nat.succ_pred_eq_of_pos (Nat.lt_of_lt_of_le (by decide) hmr)).symm⟩
    rw [runAttempts, hs]
    simp [attemptSucceeds, hlt]
  · intro s hs hge
    rw [deliver_message, if_neg hu]
    simp only [Bool.true_eq_false, if_false, ite_false]
    obtain ⟨mr', rfl⟩ : ∃ mr', mr = mr' + 1 :=
      ⟨mr - 1, (Nat.succ_pred_eq_of_pos (Nat.lt_of_lt_of_le (by decide) hmr)).symm⟩
    have hfail : attemptSucceeds (outcomes 0) = false := by
      rw [hs]
      simp [attemptSucceeds, Nat.not_lt.2 hge]
    rw [runAttempts, hfail]
    simp only [Bool.false_eq_true, if_false, ite_false]
    have h1 : 1 ≤ (runAttempts outcomes (mr' + 1) 1 mr').attempts :=
      runAttempts_attempts_pos outcomes (mr' + 1) 1 mr'
        (Nat.le_of_succ_le_succ (by simpa using hmr))
    simpa using Nat.succ_le_succ h1

/-- Outcome sequence used as C3's concrete input: a 503 on the first attempt,
then a 200. -/
def outcomesC3 : Nat → AttemptOutcome :=
  fun i => if i = 0 then AttemptOutcome.response 503 else AttemptOutcome.response 200

/-- Witness for the amended C3: a first-attempt 204 response succeeds at once,
and a first-attempt 503 response is retried (a second attempt happens). -/
theorem C3_status_below_300_is_success_witness :
    deliver_message webhookUser true 3 (fun _ => AttemptOutcome.response 204) =
        ⟨true, 1, []⟩ ∧
    2 ≤ (deliver_message webhookUser true 3 outcomesC3).attempts := by
  constructor
  · exact (C3_status_below_300_is_success webhookUser 3 (fun _ => AttemptOutcome.response 204)
      (by decide) (by decide)).1 204 rfl (by decide)
  · exact (C3_status_below_300_is_success webhookUser 3 outcomesC3
      (by decide) (by decide)).2.1 503 rfl (by decide)

/-- A row of the `messages` table / the `Message` pydantic model. -/
structure Message where
  id : Nat
  from_username : String
  to_username : Option String
  content : String
  message_type : MessageType
  timestamp : Int
deriving DecidableEq, Repr

/-- A row of the `read_receipts` table / the `ReadReceipt` model. -/
structure ReadReceipt where
  message_id : Nat
  username : String
  read_at : Int
deriving DecidableEq, Repr

/-- The SQLite state owned by `ChatStorage`: the `messages` and
`read_receipts` tables as lists of rows. -/
structure StorageState where
  messages : List Message
  receipts : List ReadReceipt
deriving DecidableEq, Repr

/-- The `SELECT 1 FROM read_receipts WHERE message_id = ? AND username = ?`
existence check. -/
def hasReadReceipt (rs : List ReadReceipt) (mid : Nat) (u : String) : Bool :=
  rs.any (fun r => r.message_id == mid && r.username == u)

/-- The optional `AND timestamp > ?` clause of the paginated queries. -/
def sinceMatches (since : Option Int) (ts : Int) : Bool :=
  match since with
  | none => true
  | some t => decide (t < ts)

/-- `ORDER BY timestamp ASC` (stable sort on the timestamp column). -/
def sortByTimestamp (l : List Message) : List Message :=
  List.insertionSort (fun a b => a.timestamp ≤ b.timestamp) l

/-- The WHERE clause of `ChatStorage.get_direct_messages` (`storage.py` lines
453-462): `to_username IS NOT NULL AND (to_username = ? OR from_username = ?)`,
plus the optional since clause.  There is no viewer-mode branch. -/
def directFilter (u : String) (since : Option Int) (m : Message) : Bool :=
  m.to_username.isSome && (m.to_username == some u || m.from_username == u) &&
    sinceMatches since m.timestamp

/-- `ChatStorage.get_direct_messages` (`storage.py` lines 436-470):
filter, order by timestamp, then `LIMIT ? OFFSET ?`. -/
def get_direct_messages (s : StorageState) (username : String) (limit offset : Nat)
    (since : Option Int) : List Message :=
  ((sortByTimestamp (s.messages.filter (directFilter username since))).drop offset).take limit

/-- `ChatStorage.get_direct_messages_count` (`storage.py` lines 494-519). -/
def get_direct_messages_count (s : StorageState) (username : String)
    (since : Option Int) : Nat :=
  (s.messages.filter (directFilter username since)).length

/-- The WHERE clause of `ChatStorage.get_unread_direct_messages` (`storage.py`
lines 830-843): direct messages to or from the user, with no read receipt for
the user, excluding self-authored ones.  There is no viewer-mode branch. -/
def unreadDirectFilter (rs : List ReadReceipt) (u : String) (m : Message) : Bool :=
  m.to_username.isSome && (m.to_username == some u || m.from_username == u) &&
    !hasReadReceipt rs m.id u && m.from_username != u

/-- `ChatStorage.get_unread_direct_messages` (`storage.py` lines 814-846). -/
def get_unread_direct_messages (s : StorageState) (username : String)
    (limit offset : Nat) : List Message :=
  ((sortByTimestamp (s.messages.filter (unreadDirectFilter s.receipts username))).drop
    offset).take limit

/-- The WHERE clause of the room-message half of unread tracking (`storage.py`
lines 797-808 and 861-871): room messages with no receipt for the user,
excluding self-authored ones. -/
def unreadRoomFilter (rs : List ReadReceipt) (u : String) (m : Message) : Bool :=
  m.to_username == none && !hasReadReceipt rs m.id u && m.from_username != u

/-- `ChatStorage.get_unread_count` (`storage.py` lines 848-889): returns
`(unread_room, unread_direct, unread_room + unread_direct)`. -/
def get_unread_count (s : StorageState) (u : String) : Nat × Nat × Nat :=
  let unread_room := (s.messages.filter (unreadRoomFilter s.receipts u)).length
  let unread_direct := (s.messages.filter (unreadDirectFilter s.receipts u)).length
  (unread_room, unread_direct, unread_room + unread_direct)

/-- `ChatStorage.get_message_by_id` (`storage.py` lines 643-660):
`SELECT * FROM messages WHERE id = ?`, first row or `None`. -/
def get_message_by_id (s : StorageState) (mid : Nat) : Option Message :=
  s.messages.find? (fun m => m.id == mid)

/-- `ChatStorage.mark_message_as_read` (`storage.py` lines 714-741): if a
receipt for `(message_id, username)` exists return `False`, otherwise insert
one (with the current time) and return `True`. -/
def mark_message_as_read (s : StorageState) (now : Int) (mid : Nat) (u : String) :
    Bool × StorageState :=
  if hasReadReceipt s.receipts mid u then (false, s)
  else (true, { s with receipts := s.receipts ++ [⟨mid, u, now⟩] })

/-- The unread-set WHERE clause of `ChatStorage.mark_all_messages_as_read`
(`storage.py` lines 756-764): no receipt for the user, and
`(to_username IS NULL OR to_username = ? OR from_username = ?)`, excluding
self-authored messages. -/
def markAllFilter (rs : List ReadReceipt) (u : String) (m : Message) : Bool :=
  !hasReadReceipt rs m.id u &&
    (m.to_username == none || m.to_username == some u || m.from_username == u) &&
    m.from_username != u

/-- The `INSERT OR IGNORE` executemany of `mark_all_messages_as_read`: insert a
receipt for each id unless one already exists for `(id, username)`. -/
def insertReceiptsIgnore (rs : List ReadReceipt) (u : String) (now : Int) :
    List Nat → List ReadReceipt
  | [] => rs
  | mid :: rest =>
    if hasReadReceipt rs mid u then insertReceiptsIgnore rs u now rest
    else insertReceiptsIgnore (rs ++ [⟨mid, u, now⟩]) u now rest

/-- `ChatStorage.mark_all_messages_as_read` (`storage.py` lines 743-779):
collect the unread message ids, insert receipts for all of them, and return
the number of rows inserted. -/
def mark_all_messages_as_read (s : StorageState) (now : Int) (u : String) :
    Nat × StorageState :=
  let unreadIds := (s.messages.filter (markAllFilter s.receipts u)).map (fun m => m.id)
  let newReceipts := insertReceiptsIgnore s.receipts u now unreadIds
  (newReceipts.length - s.receipts.length, { s with receipts := newReceipts })

theorem hasReadReceipt_append_right (rs l : List ReadReceipt) (mid : Nat) (u : String)
    (h : hasReadReceipt rs mid u = true) : hasReadReceipt (rs ++ l) mid u = true := by
  simp only [hasReadReceipt, List.any_append, Bool.or_eq_true]
  exact Or.inl h

theorem insertReceiptsIgnore_mono (u : String) (now : Int) (mid : Nat) (v : String) :
    ∀ (ids : List Nat) (rs : List ReadReceipt), hasReadReceipt rs mid v = true →
      hasReadReceipt (insertReceiptsIgnore rs u now ids) mid v = true := by
  intro ids
  induction ids with
  | nil => intro rs h; simpa [insertReceiptsIgnore] using h
  | cons a rest ih =>
    intro rs h
    rw [insertReceiptsIgnore]
    by_cases hc : hasReadReceipt rs a u = true
    · rw [if_pos hc]; exact ih rs h
    · rw [if_neg hc]; exact ih _ (hasReadReceipt_append_right rs _ mid v h)

theorem insertReceiptsIgnore_covers (u : String) (now : Int) (mid : Nat) :
    ∀ (ids : List Nat) (rs : List ReadReceipt), mid ∈ ids →
      hasReadReceipt (insertReceiptsIgnore rs u now ids) mid u = true := by
  intro ids
  induction ids with
  | nil => intro rs h; cases h
  | cons a rest ih =>
    intro rs h
    rw [insertReceiptsIgnore]
    rcases List.mem_cons.1 h with rfl | hmem
    · by_cases hc : hasReadReceipt rs mid u = true
      · rw [if_pos hc]; exact insertReceiptsIgnore_mono u now mid u rest rs hc
      · rw [if_neg hc]
        refine insertReceiptsIgnore_mono u now mid u rest _ ?_
        simp [hasReadReceipt]
    · by_cases hc : hasReadReceipt rs a u = true
      · rw [if_pos hc]; exact ih rs hmem
      · rw [if_neg hc]; exact ih _ hmem

/-- A direct message between two regular users, used as concrete input. -/
def dmAliceBob : Message :=
  { id := 1, from_username := "alice", to_username := some "bob",
    content := "secret message to bob", message_type := MessageType.direct, timestamp := 10 }

/-- Storage state holding exactly one direct message, between alice and bob. -/
def stateC1 : StorageState := { messages := [dmAliceBob], receipts := [] }

/-- C1 (code bug evidence): `ChatStorage.get_direct_messages`,
`get_direct_messages_count` and `get_unread_direct_messages` have no
viewer-mode branch — they always filter on
`to_username = user OR from_username = user` — so a viewer-role identity
querying direct-message history or unread state gets none of the direct
messages exchanged between other identities (here the alice→bob message),
while the sender alice does see it.  (`api.py` lines 460-471 even pass an
`is_viewer` keyword argument that `ChatStorage.get_direct_messages` does not
accept.)  This contradicts the claimed viewer behaviour, which the
repository's own `api.py` docstring and `tests/test_viewer.py`
(`test_viewer_can_see_all_direct_messages`) assert. -/
theorem C1_viewer_query_returns_no_foreign_dms :
    get_direct_messages stateC1 "viewer_user" 50 0 none = [] ∧
    get_direct_messages_count stateC1 "viewer_user" none = 0 ∧
    get_unread_direct_messages stateC1 "viewer_user" 50 0 = [] ∧
    get_direct_messages stateC1 "alice" 50 0 none = [dmAliceBob] := by
  decide

/-- C4: `get_unread_count` always returns a triple whose third component is
the sum of the first two, and immediately after `mark_all_messages_as_read`
(with no intervening insertions) the unread count of that user is
`(0, 0, 0)`. -/
theorem C4_unread_count_consistency (s : StorageState) (now : Int) (u : String) :
    (get_unread_count s u).2.2 = (get_unread_count s u).1 + (get_unread_count s u).2.1 ∧
    get_unread_count (mark_all_messages_as_read s now u).2 u = (0, 0, 0) := by
  refine ⟨rfl, ?_⟩
  have hcover : ∀ m ∈ s.messages, markAllFilter s.receipts u m = true →
      hasReadReceipt (insertReceiptsIgnore s.receipts u now
        ((s.messages.filter (markAllFilter s.receipts u)).map (fun m => m.id))) m.id u
        = true := by
    intro m hm hf
    apply insertReceiptsIgnore_covers
    exact List.mem_map.2 ⟨m, List.mem_filter.2 ⟨hm, hf⟩, rfl⟩
  set rs' := insertReceiptsIgnore s.receipts u now
      ((s.messages.filter (markAllFilter s.receipts u)).map (fun m => m.id)) with hrs'
  have hroom : ∀ m ∈ s.messages, ¬ unreadRoomFilter rs' u m = true := by
    intro m hm h
    simp only [unreadRoomFilter, Bool.and_eq_true, Bool.not_eq_true'] at h
    obtain ⟨⟨hto, hnor⟩, hfrom⟩ := h
    by_cases hpre : hasReadReceipt s.receipts m.id u = true
    · have hmono : hasReadReceipt rs' m.id u = true :=
        insertReceiptsIgnore_mono u now m.id u _ s.receipts hpre
      rw [hmono] at hnor
      cases hnor
    · have hpre' : hasReadReceipt s.receipts m.id u = false := by
        simpa using hpre
      have hmark : markAllFilter s.receipts u m = true := by
        simp [markAllFilter, hpre', hto, hfrom]
      have hcov : hasReadReceipt rs' m.id u = true := hcover m hm hmark
      rw [hcov] at hnor
      cases hnor
  have hdirect : ∀ m ∈ s.messages, ¬ unreadDirectFilter rs' u m = true := by
    intro m hm h
    simp only [unreadDirectFilter, Bool.and_eq_true, Bool.not_eq_true'] at h
    obtain ⟨⟨⟨hto, hor⟩, hnor⟩, hfrom⟩ := h
    by_cases hpre : hasReadReceipt s.receipts m.id u = true
    · have hmono : hasReadReceipt rs' m.id u = true :=
        insertReceiptsIgnore_mono u now m.id u _ s.receipts hpre
      rw [hmono] at hnor
      cases hnor
    · have hpre' : hasReadReceipt s.receipts m.id u = false := by
        simpa using hpre
      have hor' : (m.to_username == some u) = true ∨ (m.from_username == u) = true :=
        (Bool.or_eq_true _ _) ▸ hor
      have hmark : markAllFilter s.receipts u m = true := by
        simp only [markAllFilter, Bool.and_eq_true, Bool.or_eq_true, Bool.not_eq_true']
        exact ⟨⟨hpre', hor'.elim (fun h' => Or.inl (Or.inr h')) Or.inr⟩, hfrom⟩
      have hcov : hasReadReceipt rs' m.id u = true := hcover m hm hmark
      rw [hcov] at hnor
      cases hnor
  have h1 : s.messages.filter (unreadRoomFilter rs' u) = [] :=
    List.filter_eq_nil_iff.2 hroom
  have h2 : s.messages.filter (unreadDirectFilter rs' u) = [] :=
    List.filter_eq_nil_iff.2 hdirect
  simp only [get_unread_count, mark_all_messages_as_read, ← hrs']
  rw [h1, h2]
  rfl

/-- Number of `read_receipts` rows with key `(mid, u)`. -/
def receiptRowCount (s : StorageState) (mid : Nat) (u : String) : Nat :=
  (s.receipts.filter (fun r => r.message_id == mid && r.username == u)).length

/-- C5: `mark_message_as_read` is idempotent: for an existing message with no
receipt yet, the first call creates the receipt and returns `True`; the second
call on the same pair returns `False` (already read) without changing the
state, and exactly one receipt row for `(mid, u)` exists afterwards. -/
theorem C5_mark_read_idempotent (s : StorageState) (t1 t2 : Int) (mid : Nat) (u : String)
    (_hexists : (get_message_by_id s mid).isSome = true)
    (hnew : hasReadReceipt s.receipts mid u = false) :
    (mark_message_as_read s t1 mid u).1 = true ∧
    (mark_message_as_read (mark_message_as_read s t1 mid u).2 t2 mid u).1 = false ∧
    (mark_message_as_read (mark_message_as_read s t1 mid u).2 t2 mid u).2 =
      (mark_message_as_read s t1 mid u).2 ∧
    receiptRowCount (mark_message_as_read (mark_message_as_read s t1 mid u).2 t2 mid u).2
      mid u = 1 := by
  have h1 : mark_message_as_read s t1 mid u =
      (true, { s with receipts := s.receipts ++ [⟨mid, u, t1⟩] }) := by
    rw [mark_message_as_read, if_neg (by simp [hnew])]
  have hafter : hasReadReceipt (s.receipts ++ [⟨mid, u, t1⟩]) mid u = true := by
    simp [hasReadReceipt]
  have h2 : mark_message_as_read { s with receipts := s.receipts ++ [⟨mid, u, t1⟩] } t2 mid u
      = (false, { s with receipts := s.receipts ++ [⟨mid, u, t1⟩] }) := by
    rw [mark_message_as_read]
    simp only [hafter, if_true]
  have hfilter : s.receipts.filter (fun r => r.message_id == mid && r.username == u) = [] := by
    apply List.filter_eq_nil_iff.2
    intro r hr h
    have hany : s.receipts.any (fun r => r.message_id == mid && r.username == u) = true :=
      List.any_eq_true.2 ⟨r, hr, h⟩
    rw [hasReadReceipt] at hnew
    rw [hany] at hnew
    cases hnew
  refine ⟨by rw [h1], by rw [h1, h2], by rw [h1, h2], ?_⟩
  rw [h1, h2]
  simp only [receiptRowCount, List.filter_append, hfilter]
  simp

/-- An existing room message, used as C5's and C6's concrete input. -/
def msgC5 : Message :=
  { id := 4, from_username := "alice", to_username := none,
    content := "hello room", message_type := MessageType.room, timestamp := 3 }

/-- Storage state with one existing room message and no receipts. -/
def stateC5 : StorageState := { messages := [msgC5], receipts := [] }

/-- Witness for C5 at a concrete state: marking message 4 read for bob twice
yields `True` then `False`, with exactly one receipt row. -/
theorem C5_mark_read_idempotent_witness :
    (mark_message_as_read stateC5 10 4 "bob").1 = true ∧
    (mark_message_as_read (mark_message_as_read stateC5 10 4 "bob").2 20 4 "bob").1 = false ∧
    receiptRowCount (mark_message_as_read
      (mark_message_as_read stateC5 10 4 "bob").2 20 4 "bob").2 4 "bob" = 1 := by
  have h := C5_mark_read_idempotent stateC5 10 20 4 "bob" (by decide) (by decide)
  exact ⟨h.1, h.2.1, h.2.2.2⟩

/-- Result of `POST /messages/{message_id}/read` (`api.py` lines 609-632):
either 204 No Content (after calling storage) or a 404 with detail
"Message … not found". -/
inductive MarkReadHttpResult where
  | noContent (created : Bool)
  | notFoundError (mid : Nat)
deriving DecidableEq, Repr

/-- The HTTP mark-read endpoint: verify the message exists, 404 otherwise,
then delegate to `ChatStorage.mark_message_as_read`. -/
def api_mark_message_as_read (s : StorageState) (now : Int) (mid : Nat) (u : String) :
    MarkReadHttpResult × StorageState :=
  match get_message_by_id s mid with
  | none => (MarkReadHttpResult.notFoundError mid, s)
  | some _ =>
    let r := mark_message_as_read s now mid u
    (MarkReadHttpResult.noContent r.1, r.2)

/-- Reply frame of the WebSocket `mark_read` handler (`api.py` lines
2132-2173): an error frame "Message … not found" or a `marked_read`
confirmation. -/
inductive WsMarkReadReply where
  | errorNotFound (mid : Nat)
  | markedRead (mid : Nat)
deriving DecidableEq, Repr

/-- The WebSocket `mark_read` frame handler: verify the message exists, error
frame otherwise, then delegate to `ChatStorage.mark_message_as_read`. -/
def ws_mark_read (s : StorageState) (now : Int) (mid : Nat) (u : String) :
    WsMarkReadReply × StorageState :=
  match get_message_by_id s mid with
  | none => (WsMarkReadReply.errorNotFound mid, s)
  | some _ =>
    let r := mark_message_as_read s now mid u
    (WsMarkReadReply.markedRead mid, r.2)

/-- C6: for a message id that names no stored message, both the HTTP mark-read
endpoint and the WebSocket `mark_read` frame reject with a not-found error and
leave the storage state unchanged (no read receipt is created); neither is a
silent no-op. -/
theorem C6_mark_read_unknown_id_not_found (s : StorageState) (now : Int) (mid : Nat)
    (u : String) (h : get_message_by_id s mid = none) :
    api_mark_message_as_read s now mid u = (MarkReadHttpResult.notFoundError mid, s) ∧
    ws_mark_read s now mid u = (WsMarkReadReply.errorNotFound mid, s) := by
  rw [api_mark_message_as_read, ws_mark_read, h]
  exact ⟨rfl, rfl⟩

/-- Witness for C6: in a state whose only message has id 4, marking id 99 read
is rejected with not-found by both interfaces and the state is unchanged. -/
theorem C6_mark_read_unknown_id_not_found_witness :
    api_mark_message_as_read stateC5 10 99 "bob" =
      (MarkReadHttpResult.notFoundError 99, stateC5) ∧
    ws_mark_read stateC5 10 99 "bob" = (WsMarkReadReply.errorNotFound 99, stateC5) :=
  C6_mark_read_unknown_id_not_found stateC5 10 99 "bob" (by decide)

/-- Per-connection bookkeeping of `WebSocketHeartbeat.track_connection`
(`websocket_heartbeat.py` lines 38-43): last-activity and last-pong
timestamps (integer seconds). -/
structure ConnInfo where
  lastActivity : Int
  lastPong : Int
deriving DecidableEq, Repr

/-- State of the `WebSocketHeartbeat` manager: `active_connections` and
`heartbeat_tasks` are dicts keyed by `(username, websocket)`; a WebSocket
object is modelled as a `Nat` handle.  A task is its `done()` flag; calls to
`task.cancel()` are recorded in `cancelledLog` so that "cancels exactly this
task" is observable. -/
structure HeartbeatState where
  info : String × Nat → Option ConnInfo
  tasks : String × Nat → Option Bool
  cancelledLog : List (String × Nat)

/-- `WebSocketHeartbeat.untrack_connection` (`websocket_heartbeat.py` lines
46-64): delete the connection-info entry if present; if a task is registered
under the key, cancel it unless it is done and delete it. -/
def untrack_connection (hb : HeartbeatState) (u : String) (w : Nat) : HeartbeatState :=
  let key : String × Nat := (u, w)
  let info' := if (hb.info key).isSome
    then fun k => if k = key then none else hb.info k
    else hb.info
  match hb.tasks key with
  | none => { hb with info := info' }
  | some taskDone =>
    { info := info',
      tasks := fun k => if k = key then none else hb.tasks k,
      cancelledLog := if taskDone then hb.cancelledLog else hb.cancelledLog ++ [key] }

/-- Combined state of the module-level `ConnectionManager` and its
`heartbeat_manager`: `active_connections` maps a username to its list of
WebSocket handles (`websocket.py` line 24). -/
structure ServerState where
  active : String → Option (List Nat)
  hb : HeartbeatState

/-- `ConnectionManager.disconnect` (`websocket.py` lines 50-72): if the
username is registered and the websocket is in its list, remove it, drop the
username entry when its list becomes empty, and untrack this connection's
heartbeat; otherwise do nothing. -/
def disconnect (s : ServerState) (username : String) (w : Nat) : ServerState :=
  match s.active username with
  | none => s
  | some conns =>
    if w ∈ conns then
      let conns' := conns.erase w
      { active := fun v => if v = username then
          (if conns' = [] then none else some conns') else s.active v,
        hb := untrack_connection s.hb username w }
    else s

/-- C7: when an identity has N ≥ 2 registered connections, disconnecting one
of them removes exactly that connection (N−1 remain, the identity stays
registered), deletes and cancels exactly that connection's heartbeat entry and
running task, and leaves every other identity's connections and every other
key's heartbeat entries and tasks unchanged. -/
theorem C7_disconnect_removes_exactly_one (s : ServerState) (u : String) (w : Nat)
    (l : List Nat) (ci : ConnInfo)
    (hl : s.active u = some l) (hw : w ∈ l) (hN : 2 ≤ l.length)
    (hinfo : s.hb.info (u, w) = some ci)
    (htask : s.hb.tasks (u, w) = some false) :
    (disconnect s u w).active u = some (l.erase w) ∧
    (l.erase w).length = l.length - 1 ∧
    (∀ v, v ≠ u → (disconnect s u w).active v = s.active v) ∧
    (disconnect s u w).hb.info (u, w) = none ∧
    (disconnect s u w).hb.tasks (u, w) = none ∧
    (∀ k, k ≠ (u, w) → (disconnect s u w).hb.info k = s.hb.info k ∧
      (disconnect s u w).hb.tasks k = s.hb.tasks k) ∧
    (disconnect s u w).hb.cancelledLog = s.hb.cancelledLog ++ [(u, w)] := by
  have hlen : (l.erase w).length = l.length - 1 := List.length_erase_of_mem hw
  have hne : ¬ (l.erase w = []) := by
    intro hnil
    rw [hnil] at hlen
    simp only [List.length_nil] at hlen
    omega
  have hd : disconnect s u w =
      { active := fun v => if v = u then some (l.erase w) else s.active v,
        hb := untrack_connection s.hb u w } := by
    rw [disconnect, hl]
    simp [hw, hne]
  have hu : untrack_connection s.hb u w =
      { info := fun k => if k = (u, w) then none else s.hb.info k,
        tasks := fun k => if k = (u, w) then none else s.hb.tasks k,
        cancelledLog := s.hb.cancelledLog ++ [(u, w)] } := by
    rw [untrack_connection, htask]
    simp [hinfo]
  rw [hd, hu]
  refine ⟨by simp, hlen, ?_, by simp, by simp, ?_, rfl⟩
  · intro v hv
    simp [hv]
  · intro k hk
    exact ⟨by simp [hk], by simp [hk]⟩

/-- Heartbeat state with two tracked connections of alice, both with a running
task, used as concrete input. -/
def hbTwo : HeartbeatState :=
  { info := fun k => if k = ("alice", 0) then some ⟨100, 100⟩
      else if k = ("alice", 1) then some ⟨100, 100⟩ else none,
    tasks := fun k => if k = ("alice", 0) then some false
      else if k = ("alice", 1) then some false else none,
    cancelledLog := [] }

/-- Server state where alice has two live connections (handles 0 and 1). -/
def srvTwo : ServerState :=
  { active := fun v => if v = "alice" then some [0, 1] else none, hb := hbTwo }

/-- Witness for C7: disconnecting alice's connection 0 leaves connection 1
registered, removes and cancels exactly connection 0's heartbeat entry and
task, and leaves connection 1's entry and task untouched. -/
theorem C7_disconnect_removes_exactly_one_witness :
    (disconnect srvTwo "alice" 0).active "alice" = some ([0, 1].erase 0) ∧
    (disconnect srvTwo "alice" 0).hb.info ("alice", 0) = none ∧
    (disconnect srvTwo "alice" 0).hb.tasks ("alice", 0) = none ∧
    ((disconnect srvTwo "alice" 0).hb.info ("alice", 1) = srvTwo.hb.info ("alice", 1) ∧
      (disconnect srvTwo "alice" 0).hb.tasks ("alice", 1) = srvTwo.hb.tasks ("alice", 1)) ∧
    (disconnect srvTwo "alice" 0).hb.cancelledLog = srvTwo.hb.cancelledLog ++ [("alice", 0)] := by
  have h := C7_disconnect_removes_exactly_one srvTwo "alice" 0 [0, 1] ⟨100, 100⟩
    (by decide) (by decide) (by decide) (by decide) (by decide)
  exact ⟨h.1, h.2.2.2.1, h.2.2.2.2.1, h.2.2.2.2.2.1 ("alice", 1) (by decide),
    h.2.2.2.2.2.2⟩

/-- C8: disconnecting an (identity, transport) pair that is not registered —
either the identity has no entry at all, or the transport is not in its list —
is a no-op: the whole state (registry and heartbeat bookkeeping) is returned
unchanged, and no error is possible (the operation is a total function). -/
theorem C8_disconnect_unknown_noop (s : ServerState) (u : String) (w : Nat)
    (h : s.active u = none ∨ ∃ l, s.active u = some l ∧ w ∉ l) :
    disconnect s u w = s := by
  rcases h with h | ⟨l, hl, hw⟩
  · rw [disconnect, h]
  · rw [disconnect, hl]
    simp [hw]

/-- Witness for C8: disconnecting handle 5 of alice (registered, but only with
handles 0 and 1) and disconnecting unregistered bob are both no-ops. -/
theorem C8_disconnect_unknown_noop_witness :
    disconnect srvTwo "alice" 5 = srvTwo ∧ disconnect srvTwo "bob" 0 = srvTwo :=
  ⟨C8_disconnect_unknown_noop srvTwo "alice" 5 (Or.inr ⟨[0, 1], by decide, by decide⟩),
   C8_disconnect_unknown_noop srvTwo "bob" 0 (Or.inl (by decide))⟩

/-- `HEARTBEAT_INTERVAL` (`websocket_heartbeat.py` line 12): ping every 30s. -/
def HEARTBEAT_INTERVAL : Int := 30

/-- `PONG_TIMEOUT` (`websocket_heartbeat.py` line 13): a 10s ack-wait constant
that no decision below ever reads — dead configuration. -/
def PONG_TIMEOUT : Int := 10

/-- `CONNECTION_TIMEOUT` (`websocket_heartbeat.py` line 14): 90s staleness
threshold. -/
def CONNECTION_TIMEOUT : Int := 90

/-- `WebSocketHeartbeat.is_connection_healthy` (`websocket_heartbeat.py` lines
195-214): false for untracked connections, otherwise
`time_since_activity < CONNECTION_TIMEOUT`.  Only `last_activity` is read. -/
def is_connection_healthy (hb : HeartbeatState) (now : Int) (u : String) (w : Nat) : Bool :=
  match hb.info (u, w) with
  | none => false
  | some ci => decide (now - ci.lastActivity < CONNECTION_TIMEOUT)

/-- The staleness decision of one `heartbeat_loop` iteration
(`websocket_heartbeat.py` lines 133-149): force-disconnect when
`time_since_activity > CONNECTION_TIMEOUT`.  Only `last_activity` is read. -/
def heartbeat_stale_check (hb : HeartbeatState) (now : Int) (u : String) (w : Nat) : Bool :=
  match hb.info (u, w) with
  | none => false
  | some ci => decide (CONNECTION_TIMEOUT < now - ci.lastActivity)

/-- State surgery changing only the stored last-pong timestamp of one
connection, used to state that the probe-ack timestamp never influences a
decision. -/
def withLastPong (hb : HeartbeatState) (key : String × Nat) (p : Int) : HeartbeatState :=
  { hb with info := fun k => if k = key
      then (hb.info k).map (fun ci => { ci with lastPong := p })
      else hb.info k }

/-- C9: for a tracked connection, `is_connection_healthy` is true iff the time
since its last recorded activity is below the 90-second threshold; it is false
for untracked connections; and neither the health verdict nor the
staleness-disconnect decision of the heartbeat loop changes when the stored
last-probe-ack (`last_pong`) timestamp is changed arbitrarily — the ack
timestamp and the 10s `PONG_TIMEOUT` constant never influence them. -/
theorem C9_health_iff_fresh_activity (hb : HeartbeatState) (now : Int) (u : String)
    (w : Nat) (ci : ConnInfo) (h : hb.info (u, w) = some ci) :
    (is_connection_healthy hb now u w = true ↔
      now - ci.lastActivity < CONNECTION_TIMEOUT) ∧
    (∀ t : HeartbeatState, t.info (u, w) = none →
      is_connection_healthy t now u w = false) ∧
    (∀ p, is_connection_healthy (withLastPong hb (u, w) p) now u w =
      is_connection_healthy hb now u w) ∧
    (∀ p, heartbeat_stale_check (withLastPong hb (u, w) p) now u w =
      heartbeat_stale_check hb now u w) := by
  refine ⟨?_, ?_, ?_, ?_⟩
  · rw [is_connection_healthy, h]
    exact decide_eq_true_iff
  · intro t ht
    rw [is_connection_healthy, ht]
  · intro p
    rw [is_connection_healthy, is_connection_healthy, withLastPong, h]
    simp [h]
  · intro p
    rw [heartbeat_stale_check, heartbeat_stale_check, withLastPong, h]
    simp [h]

/-- Witness for C9 at a concrete state: alice's connection 0 last active at
t=100 is healthy at t=150 (50s < 90s), and rewriting its last-pong timestamp
to 999 changes neither the health verdict nor the staleness decision. -/
theorem C9_health_iff_fresh_activity_witness :
    (is_connection_healthy hbTwo 150 "alice" 0 = true ↔
      (150 : Int) - (ConnInfo.mk 100 100).lastActivity < CONNECTION_TIMEOUT) ∧
    is_connection_healthy (withLastPong hbTwo ("alice", 0) 999) 150 "alice" 0 =
      is_connection_healthy hbTwo 150 "alice" 0 ∧
    heartbeat_stale_check (withLastPong hbTwo ("alice", 0) 999) 150 "alice" 0 =
      heartbeat_stale_check hbTwo 150 "alice" 0 := by
  have h := C9_health_iff_fresh_activity hbTwo 150 "alice" 0 ⟨100, 100⟩ (by decide)
  exact ⟨h.1, h.2.2.1 999, h.2.2.2 999⟩

/-- C10: every `User` that passes model validation has its legacy booleans
fully derived from `role` — `admin = (role == ADMIN)`, `viewer = (role ==
VIEWER)`, `bot = (role == BOT)` — the role field itself is kept, and the
boolean values supplied at construction are irrelevant to the result, so the
booleans can never disagree with the role. -/
theorem C10_legacy_booleans_derived_from_role (i u : User) (h : mkUser i = some u) :
    u.admin = (u.role == Role.admin) ∧
    u.viewer = (u.role == Role.viewer) ∧
    u.bot = (u.role == Role.bot) ∧
    u.role = i.role ∧
    (∀ a b c : Bool, mkUser { i with viewer := a, admin := b, bot := c } = mkUser i) := by
  rw [mkUser] at h
  by_cases hc : (1 ≤ i.username.length ∧ i.username.length ≤ 50) ∧
      (32 ≤ i.api_key.length ∧ i.api_key.length ≤ 128) ∧
      validate_logo i.logo = true ∧ validate_emoji i.emoji = true
  · rw [if_pos hc] at h
    have hu : u = sync_role_with_legacy_fields i := (Option.some.inj h).symm
    subst hu
    refine ⟨rfl, rfl, rfl, rfl, ?_⟩
    intro a b c
    rfl
  · rw [if_neg hc] at h
    cases h

/-- Raw constructor input for C10's witness: a viewer-role user registered
with contradictory legacy booleans (`admin := true`, `bot := true`,
`viewer := false`). -/
def rawViewer : User :=
  { id := 7, username := "watcher", api_key := "0123456789abcdef0123456789abcdef",
    role := Role.viewer, created_by := none, stytch_user_id := none, email := none,
    webhook_url := none, logo := none, viewer := false, admin := true, bot := true,
    emoji := none, created_at := 0 }

/-- The validated user produced from `rawViewer`. -/
def syncedViewer : User := sync_role_with_legacy_fields rawViewer

/-- Witness for C10: validation accepts `rawViewer` and the resulting user's
booleans are derived from the viewer role, overriding the supplied values. -/
theorem C10_legacy_booleans_derived_from_role_witness :
    syncedViewer.admin = (syncedViewer.role == Role.admin) ∧
    syncedViewer.viewer = (syncedViewer.role == Role.viewer) ∧
    syncedViewer.bot = (syncedViewer.role == Role.bot) ∧
    syncedViewer.role = rawViewer.role := by
  have h := C10_legacy_booleans_derived_from_role rawViewer syncedViewer (by decide)
  exact ⟨h.1, h.2.1, h.2.2.1, h.2.2.2.1⟩
